import Mathlib

/-!
Shallow embedding of the Streamlit RAG chat client (src/app.py).

The app is a single script rerun on every interaction.  We embed its pure
logic as total Lean functions:

* HTTP transport outcomes (network failure / timeout vs. a response with a
  status code and a JSON-decode result) are explicit inductive inputs, so a
  Python exception path becomes an explicit constructor or an
  `Except.error`.
* `st.session_state` becomes an explicit `AppState` record threaded through
  the functions; fields that may be absent before first initialization are
  `Option`s.
* Streamlit render calls (`st.markdown`, `st.error`, buttons, …) become a
  list of `RenderItem`s produced by each function.
* Wall-clock timing (`time.time()`) is not modelled; the elapsed-time
  caption is an opaque `elapsedCaption` item.
* URLs and the HTTP wire format are not modelled beyond the request payload
  record, since the payload contents are what the spec constrains.
-/

/-- A chat message, `{role, content}` (src/app.py stores plain dicts). -/
structure Message where
  role : String
  content : String
deriving Repr, DecidableEq

/-- The JSON body sent by `_post_query` (src/app.py lines 33-37). -/
structure QueryPayload where
  query : String
  top_k : Int
  history : Option (List Message)
deriving Repr, DecidableEq

/-- A citation dict as read by `_render_citations`; every field is accessed
with `.get`, hence optional. -/
structure Citation where
  rank : Option Int
  title : Option String
  source_url : Option String
  source_domain : Option String
  date : Option String
  snippet : Option String
deriving Repr, DecidableEq

/-- The JSON body of a successful `/query` response, as read by
`_send_and_render` via `.get`. -/
structure QueryResponse where
  answer : Option String
  citations : Option (List Citation)
  follow_ups : Option (List String)
deriving Repr, DecidableEq

/-- The dict returned by `_healthcheck`: only `status` and `detail` are ever
read downstream (src/app.py lines 123-124), both via `.get`. -/
structure HealthDict where
  status : Option String
  detail : Option String
deriving Repr, DecidableEq

/-- Outcome of `requests.get(f"{url}/health", timeout=5)` followed by body
decoding: either the call raises (network failure / timeout), or a response
arrives with a status code and a JSON-decode result (`resp.json()` raises on
a malformed body, hence `Except`). -/
inductive GetOutcome where
  | exn (msg : String)
  | response (status : Nat) (body : Except String HealthDict)
deriving Repr

/-- Outcome of `requests.post(f"{url}/query", json=payload, timeout=120)`
followed by body decoding, same shape as `GetOutcome`. -/
inductive PostOutcome where
  | exn (msg : String)
  | response (status : Nat) (body : Except String QueryResponse)
deriving Repr

/-- Python `l[-n:]` for `n > 0`: the suffix of the last `n` elements
(the whole list when it is shorter than `n`). -/
def pySliceLast (n : Nat) (l : List α) : List α :=
  l.drop (l.length - n)

/-- Python truthiness of an optional string: `None` and `""` are falsy. -/
def pyTruthy (x : Option String) : Bool :=
  match x with
  | some s => s ≠ ""
  | none => false

/-- Python `x or default` for an optional string `x`. -/
def pyOrStr (x : Option String) (default : String) : String :=
  match x with
  | some s => if s = "" then default else s
  | none => default

/-- Model of `requests.Response.raise_for_status`: raises `HTTPError` exactly for
4xx and 5xx status codes (with a "Client Error" / "Server Error" message
carrying the code); returns normally otherwise.  `some msg` models the
raise.  The url/reason parts of the real message are elided. -/
def raiseForStatus (status : Nat) : Option String :=
  if 400 ≤ status ∧ status < 500 then
    some (toString status ++ " Client Error")
  else if 500 ≤ status ∧ status < 600 then
    some (toString status ++ " Server Error")
  else
    none

/-- Model of `_healthcheck` (src/app.py lines 22-29).  `resp.ok` is
`status_code < 400`.  The whole body is wrapped in
`try ... except Exception`, so a transport exception or a `resp.json()`
decode failure yields `{"status": "error", "detail": str(e)}`; a non-ok
status yields `{"status": "error", "detail": f"HTTP {status_code}"}`. -/
def _healthcheck (net : GetOutcome) : HealthDict :=
  match net with
  | .exn msg => { status := some "error", detail := some msg }
  | .response status body =>
      if status < 400 then
        match body with
        | .ok d => d
        | .error msg => { status := some "error", detail := some msg }
      else
        { status := some "error", detail := some ("HTTP " ++ toString status) }

/-- Model of `_post_query` (src/app.py lines 32-40).  Returns the payload it sends
together with the call result: `payload = {"query": query_text, "top_k":
top_k, "history": history[-6:] if history else None}`; then
`resp.raise_for_status()` (propagates 4xx/5xx as an exception) and
`resp.json()` (propagates decode failures).  Nothing is caught here. -/
def _post_query (query_text : String) (top_k : Int) (history : List Message)
    (net : PostOutcome) : QueryPayload × Except String QueryResponse :=
  let payload : QueryPayload :=
    { query := query_text
      top_k := top_k
      history := if history.isEmpty then none else some (pySliceLast 6 history) }
  (payload,
    match net with
    | .exn msg => .error msg
    | .response status body =>
        match raiseForStatus status with
        | some msg => .error msg
        | none => body)

/-- One Streamlit render call, flattened.  `chatMessage` is a
`st.chat_message(role)` bubble with its markdown content; `elapsedCaption`
stands for the `st.caption(f"Answered in {elapsed:.1f}s")` call, whose text
depends on wall-clock time and is not modelled further. -/
inductive RenderItem where
  | chatMessage (role : String) (content : String)
  | errorBox (text : String)
  | caption (text : String)
  | markdown (text : String)
  | writeText (text : String)
  | link (url : String)
  | divider
  | button (label : String)
  | elapsedCaption
  | badgeSuccess (text : String)
  | badgeWarning (text : String)
  | badgeError (text : String)
deriving Repr, DecidableEq

/-- Rendering of one citation inside the expander
(src/app.py lines 59-75): header `**[{rank}] {title}**` (a missing rank
prints as Python prints `None`; `c.get("title") or "Untitled"`), an optional
`domain • date` caption, optional snippet, optional source link, divider. -/
def renderOneCitation (c : Citation) : List RenderItem :=
  let rankStr := match c.rank with
    | some r => toString r
    | none => "None"
  let title := pyOrStr c.title "Untitled"
  let meta_bits := [c.source_domain, c.date].filterMap
    (fun b => if pyTruthy b then b else none)
  [RenderItem.markdown ("**[" ++ rankStr ++ "] " ++ title ++ "**")]
  ++ (if meta_bits.isEmpty then [] else
        [RenderItem.caption (String.intercalate " • " meta_bits)])
  ++ (match c.snippet with
      | some s => if s = "" then [] else [RenderItem.writeText s]
      | none => [])
  ++ (match c.source_url with
      | some u => if u = "" then [] else [RenderItem.link u]
      | none => [])
  ++ [RenderItem.divider]

/-- Model of `_render_citations` (src/app.py lines 43-75): nothing when the list is
empty; otherwise a tooltip line followed by each citation in received
order inside the "Citations" expander. -/
def _render_citations (citations : List Citation) : List RenderItem :=
  if citations.isEmpty then []
  else
    RenderItem.markdown "Hover for citation notes"
      :: citations.flatMap renderOneCitation

/-- Model of `_render_followups` (src/app.py lines 78-86): nothing when the list is
empty; otherwise a caption and one button per follow-up, in order.
`clicked` says which button (by index) returned `True` on this run; its
branch assigns `st.session_state["pending_input"] = fu`.  Returns the new
`pending_input` together with the rendered items. -/
def _render_followups (follow_ups : List String) (clicked : Option Nat)
    (pending : Option String) : Option String × List RenderItem :=
  if follow_ups.isEmpty then (pending, [])
  else
    let items := RenderItem.caption "Try one of these:"
      :: follow_ups.map (fun fu => RenderItem.button fu)
    match clicked with
    | some i =>
        match follow_ups.get? i with
        | some fu => (some fu, items)
        | none => (pending, items)
    | none => (pending, items)

/-- The answer extraction `resp.get("answer") or "No answer returned."`
(src/app.py line 195): the fallback applies when `answer` is absent or the
empty string. -/
def extractAnswer (resp : QueryResponse) : String :=
  pyOrStr resp.answer "No answer returned."

/-- Model of `st.session_state`, with fields that the script initializes lazily
(`top_k`, `messages`) as `Option`s: `none` means the key is absent. -/
structure AppState where
  top_k : Option Int
  messages : Option (List Message)
  pending_input : Option String
deriving Repr, DecidableEq

/-- Result of one `_send_and_render` call: the updated `messages` and
`pending_input`, everything rendered, and the payload that was sent. -/
structure SendResult where
  messages : List Message
  pending : Option String
  rendered : List RenderItem
  payload : QueryPayload
deriving Repr

/-- Model of `_send_and_render` (src/app.py lines 183-206).  Appends the user
message, renders it, calls `_post_query` with the messages list that now
ends in that user message; on success extracts answer/citations/follow-ups
(`x or default`), renders them and appends the assistant message; any
exception from the call is caught and rendered as
`Request failed: {e}` with no assistant message appended.  `clicked` is
forwarded to the follow-up buttons rendered in the success branch. -/
def _send_and_render (query_text : String) (top_k : Int)
    (messages : List Message) (pending : Option String)
    (net : PostOutcome) (clicked : Option Nat) : SendResult :=
  let msgs1 := messages ++ [{ role := "user", content := query_text }]
  let userItems := [RenderItem.chatMessage "user" query_text]
  let call := _post_query query_text top_k msgs1 net
  match call.2 with
  | .error e =>
      { messages := msgs1
        pending := pending
        rendered := userItems
          ++ [RenderItem.errorBox ("Request failed: " ++ e)]
        payload := call.1 }
  | .ok resp =>
      let answer := extractAnswer resp
      let citations := resp.citations.getD []
      let follow_ups := resp.follow_ups.getD []
      let fr := _render_followups follow_ups clicked pending
      { messages := msgs1 ++ [{ role := "assistant", content := answer }]
        pending := fr.1
        rendered := userItems
          ++ [RenderItem.markdown answer, RenderItem.elapsedCaption]
          ++ _render_citations citations
          ++ fr.2
        payload := call.1 }

/-- The input resolution (src/app.py lines 175-180):
`prompt_prefill = st.session_state.pop("pending_input", "") if present else
""`; `user_input = st.chat_input(...)` (an `Option`: `none` when nothing
was submitted this run); `if prompt_prefill and not user_input: user_input
= prompt_prefill`.  Returns the new `pending_input` (always popped) and the
effective `user_input` as a string (`""` when nothing will be sent). -/
def resolveInput (pending : Option String) (chat : Option String) :
    Option String × String :=
  let prompt_prefill := pending.getD ""
  let typed := chat.getD ""
  let user_input :=
    if prompt_prefill ≠ "" ∧ typed = "" then prompt_prefill else typed
  (none, user_input)

/-- Model of `st.slider(label, 1, 20, default)` (src/app.py lines 138-156).
Modelled from the streamlit widget contract: the control only lets the user
pick values inside `[lo, hi]`, so the returned value is the requested
position clamped to the range. -/
def slider (lo hi sel : Int) : Int :=
  max lo (min hi sel)

/-- The sidebar health badge (src/app.py lines 122-134):
`status = health.get("status", "unknown")`, `detail = health.get("detail")`;
`ok` → success, `missing_keys` → warning, `error` → error with detail when
truthy, anything else → unknown warning. -/
def renderBadge (health : HealthDict) : RenderItem :=
  let status := health.status.getD "unknown"
  if status = "ok" then RenderItem.badgeSuccess "API healthy"
  else if status = "missing_keys" then
    RenderItem.badgeWarning "API reachable — missing keys"
  else if status = "error" then
    RenderItem.badgeError
      (if pyTruthy health.detail then
        "API error: " ++ health.detail.getD ""
      else "API error")
  else RenderItem.badgeWarning "API status unknown"

/-- The outside-world inputs of one script run: the health call outcome,
the slider position (`none` = untouched, showing its default), the chat
box submission, the query call outcome, and which follow-up button (if
any) reads `True` this run. -/
structure ScriptInputs where
  healthNet : GetOutcome
  sliderSel : Option Int
  chatInput : Option String
  queryNet : PostOutcome
  clicked : Option Nat
deriving Repr

/-- Result of one full script run. -/
structure PassResult where
  state : AppState
  rendered : List RenderItem
  sent : Option QueryPayload
deriving Repr

/-- One full top-to-bottom run of src/app.py lines 114-210 (the sidebar,
session-state initialization, history replay, input resolution, and
dispatch; page chrome elided).  Order matters and follows the script:
health badge, then `top_k` init + slider (the slider value is written back
to session state before any dispatch), then `messages` init, the history
replay, the `pending_input` pop, and finally
`if user_input: _send_and_render(user_input)`. -/
def scriptPass (st0 : AppState) (inp : ScriptInputs) : PassResult :=
  let badge := renderBadge (_healthcheck inp.healthNet)
  let topkDefault := st0.top_k.getD 5
  let topk := slider 1 20 (inp.sliderSel.getD topkDefault)
  let msgs0 := st0.messages.getD []
  let historyItems := msgs0.map (fun m => RenderItem.chatMessage m.role m.content)
  let rp := resolveInput st0.pending_input inp.chatInput
  let user_input := rp.2
  if user_input = "" then
    { state := { top_k := some topk, messages := some msgs0, pending_input := rp.1 }
      rendered := badge :: historyItems
      sent := none }
  else
    let r := _send_and_render user_input topk msgs0 rp.1 inp.queryNet inp.clicked
    { state := { top_k := some topk, messages := some r.messages,
                 pending_input := r.pending }
      rendered := badge :: historyItems ++ r.rendered
      sent := some r.payload }

/-! Concrete values used by the witness theorems below. -/

/-- A seven-message conversation. -/
def msgsSeven : List Message :=
  [{ role := "user", content := "m1" }, { role := "assistant", content := "m2" },
   { role := "user", content := "m3" }, { role := "assistant", content := "m4" },
   { role := "user", content := "m5" }, { role := "assistant", content := "m6" },
   { role := "user", content := "m7" }]

/-- A decodable body carried by a 300 response. -/
def okBody300 : QueryResponse :=
  { answer := some "hello", citations := none, follow_ups := none }

/-- A response body with no `answer` key. -/
def respNoAnswer : QueryResponse :=
  { answer := none, citations := none, follow_ups := none }

/-- A response body offering two follow-up questions. -/
def respWithFollowups : QueryResponse :=
  { answer := some "Answer.", citations := none,
    follow_ups := some ["How big?", "How fast?"] }

/-- Session state right after a follow-up button was clicked: the click's
only effect was `pending_input`. -/
def followupPendingState : AppState :=
  { top_k := some 5, messages := some [], pending_input := some "How much does X cost?" }

/-- The next run's inputs: the user submitted NOTHING in the chat box. -/
def followupPassInputs : ScriptInputs :=
  { healthNet := GetOutcome.response 200 (Except.ok { status := some "ok", detail := none })
    sliderSel := none
    chatInput := none
    queryNet := PostOutcome.response 200
      (Except.ok { answer := some "X costs $5.", citations := none, follow_ups := none })
    clicked := none }

/-- A message is well-formed when its role is one of the two chat roles and
its content is non-empty. -/
def wfMessage (m : Message) : Prop :=
  (m.role = "user" ∨ m.role = "assistant") ∧ m.content ≠ ""

instance (m : Message) : Decidable (wfMessage m) := by
  unfold wfMessage; infer_instance

/-- A 200 query outcome whose body carries two follow-up suggestions. -/
def netFollowups : PostOutcome :=
  PostOutcome.response 200 (Except.ok respWithFollowups)

/-- Session state right after the second follow-up button was clicked. -/
def autoSubmitState : AppState :=
  { top_k := some 5, messages := some [], pending_input := some "How fast?" }

/-- Inputs of the run that follows the click: no chat submission at all. -/
def autoSubmitInputs : ScriptInputs :=
  { healthNet := GetOutcome.exn "down", sliderSel := none, chatInput := none,
    queryNet := PostOutcome.exn "later", clicked := none }

/-- A session whose `top_k` was manipulated to 50, outside the range. -/
def manipulatedState : AppState :=
  { top_k := some 50, messages := some [], pending_input := none }

/-- A run where the user typed "hi" into the chat box. -/
def typedInputs : ScriptInputs :=
  { healthNet := GetOutcome.exn "down", sliderSel := none, chatInput := some "hi",
    queryNet := PostOutcome.exn "down", clicked := none }

/-- A brand-new session: no key initialized yet. -/
def freshState : AppState :=
  { top_k := none, messages := none, pending_input := none }

/-- A run with no user action at all. -/
def idleInputs : ScriptInputs :=
  { healthNet := GetOutcome.exn "down", sliderSel := none, chatInput := none,
    queryNet := PostOutcome.exn "down", clicked := none }

/-- Both a pending follow-up and freshly typed chat input are present. -/
def pendingAndTypedState : AppState :=
  { top_k := some 5, messages := some [], pending_input := some "pending question" }

/-- A session whose recorded history is well-formed. -/
def wfStartState : AppState :=
  { top_k := some 5,
    messages := some [{ role := "user", content := "earlier" }],
    pending_input := none }

/-- A run that types "hi" and gets a successful answer back. -/
def wfInputs : ScriptInputs :=
  { healthNet := GetOutcome.exn "down", sliderSel := none, chatInput := some "hi",
    queryNet := PostOutcome.response 200
      (Except.ok { answer := some "X costs $5.", citations := none, follow_ups := none }),
    clicked := none }

/-! Helper lemmas shared by the claim theorems. -/

/-- The slider output always lies inside its range. -/
theorem slider_range (lo hi sel : Int) (h : lo ≤ hi) :
    lo ≤ slider lo hi sel ∧ slider lo hi sel ≤ hi := by
  unfold slider
  exact ⟨le_max_left _ _, max_le h (min_le_left _ _)⟩

/-- The payload sent by `_send_and_render` is the one `_post_query` builds
from the history that ends in the just-appended user message. -/
theorem send_and_render_payload (q : String) (k : Int) (msgs : List Message)
    (p : Option String) (net : PostOutcome) (clicked : Option Nat) :
    (_send_and_render q k msgs p net clicked).payload =
      (_post_query q k (msgs ++ [{ role := "user", content := q }]) net).1 := by
  unfold _send_and_render
  dsimp only
  split <;> rfl

/-- The answer extracted from a response is never the empty string. -/
theorem extractAnswer_ne_empty (resp : QueryResponse) : extractAnswer resp ≠ "" := by
  unfold extractAnswer pyOrStr
  cases resp.answer with
  | none => decide
  | some s =>
      dsimp only
      by_cases hs : s = ""
      · rw [if_pos hs]; decide
      · rw [if_neg hs]; exact hs

/-- After `_send_and_render`, the history is the old one plus the user
message, possibly followed by one assistant message whose content is the
extracted answer. -/
theorem send_and_render_messages (q : String) (k : Int) (msgs : List Message)
    (p : Option String) (net : PostOutcome) (clicked : Option Nat) :
    (_send_and_render q k msgs p net clicked).messages =
      msgs ++ [{ role := "user", content := q }] ∨
    ∃ resp, (_send_and_render q k msgs p net clicked).messages =
      msgs ++ [{ role := "user", content := q },
               { role := "assistant", content := extractAnswer resp }] := by
  unfold _send_and_render
  dsimp only
  split
  · exact Or.inl rfl
  · next resp heq => exact Or.inr ⟨resp, by simp⟩

/-- When the resolved input is the non-empty string `u`, the run sends the
payload built from `u`, the slider value, and the replayed history plus the
new user message. -/
theorem scriptPass_run (st0 : AppState) (inp : ScriptInputs) (u : String)
    (hu : u ≠ "") (hr : (resolveInput st0.pending_input inp.chatInput).2 = u) :
    (scriptPass st0 inp).sent =
      some ((_post_query u (slider 1 20 (inp.sliderSel.getD (st0.top_k.getD 5)))
        ((st0.messages.getD []) ++ [{ role := "user", content := u }])
        inp.queryNet).1) := by
  unfold scriptPass
  dsimp only
  rw [hr, if_neg hu]
  dsimp only
  rw [send_and_render_payload]

/-- A run either sends nothing, or sends the payload built from a non-empty
resolved input. -/
theorem scriptPass_sent_cases (st0 : AppState) (inp : ScriptInputs) :
    (scriptPass st0 inp).sent = none ∨
    ∃ u, u ≠ "" ∧ (scriptPass st0 inp).sent =
      some ((_post_query u (slider 1 20 (inp.sliderSel.getD (st0.top_k.getD 5)))
        ((st0.messages.getD []) ++ [{ role := "user", content := u }])
        inp.queryNet).1) := by
  by_cases h : (resolveInput st0.pending_input inp.chatInput).2 = ""
  · left
    unfold scriptPass
    dsimp only
    rw [h, if_pos rfl]
  · right
    exact ⟨_, h, scriptPass_run st0 inp _ h rfl⟩

/-- C1: for every `_post_query` call with a history longer than 6 entries,
the payload's `history` field is exactly the last 6 entries, in their
original order (oldest truncated first): a length-6 suffix of the input. -/
theorem C1_payload_history_last_six (q : String) (k : Int) (hist : List Message)
    (net : PostOutcome) (hlen : 6 < hist.length) :
    ∃ last6, (_post_query q k hist net).1.history = some last6 ∧
      last6.length = 6 ∧ ∃ front, hist = front ++ last6 := by
  have hne : hist.isEmpty = false := by
    cases hist with
    | nil => simp at hlen
    | cons a t => rfl
  refine ⟨pySliceLast 6 hist, ?_, ?_, hist.take (hist.length - 6), ?_⟩
  · simp [_post_query, hne]
  · simp only [pySliceLast, List.length_drop]
    omega
  · exact (List.take_append_drop _ hist).symm

/-- Witness for C1 at a concrete 7-message history. -/
theorem C1_witness :
    6 < msgsSeven.length ∧
    ∃ last6, (_post_query "q" 5 msgsSeven (PostOutcome.exn "t")).1.history = some last6 ∧
      last6.length = 6 ∧ ∃ front, msgsSeven = front ++ last6 :=
  ⟨by decide, C1_payload_history_last_six "q" 5 msgsSeven (PostOutcome.exn "t") (by decide)⟩

/-- C2: for every `_post_query` call with an empty history, the payload's
`history` field is `None`, not an empty list. -/
theorem C2_empty_history_none (q : String) (k : Int) (net : PostOutcome) :
    (_post_query q k [] net).1.history = none := rfl

/-- C4: the health check is total (it always returns a `HealthDict` value,
by construction of the embedding), and: on a transport exception it returns
status `error` with the exception message; on a non-success HTTP status
(`resp.ok` false, i.e. status ≥ 400, e.g. 503) it returns status `error`
with detail `HTTP <code>`; on a malformed body of an ok response it returns
status `error` with the decode-exception message. -/
theorem C4_healthcheck_never_raises (net : GetOutcome) :
    (∃ s d, _healthcheck net = { status := s, detail := d }) ∧
    (∀ msg, net = GetOutcome.exn msg →
      _healthcheck net = { status := some "error", detail := some msg }) ∧
    (∀ status body, net = GetOutcome.response status body → 400 ≤ status →
      _healthcheck net =
        { status := some "error", detail := some ("HTTP " ++ toString status) }) ∧
    (∀ status msg, net = GetOutcome.response status (Except.error msg) → status < 400 →
      _healthcheck net = { status := some "error", detail := some msg }) := by
  refine ⟨⟨(_healthcheck net).status, (_healthcheck net).detail, rfl⟩, ?_, ?_, ?_⟩
  · rintro msg rfl; rfl
  · rintro status body rfl hs
    simp only [_healthcheck]
    rw [if_neg (by omega)]
  · rintro status msg rfl hs
    simp only [_healthcheck]
    rw [if_pos hs]

/-- Witness for C4: a refused connection, an HTTP 503, and a malformed body
of a 200 response. -/
theorem C4_witness :
    _healthcheck (GetOutcome.exn "conn refused") =
      { status := some "error", detail := some "conn refused" } ∧
    _healthcheck (GetOutcome.response 503 (Except.ok { status := some "ok", detail := none })) =
      { status := some "error", detail := some ("HTTP " ++ toString 503) } ∧
    _healthcheck (GetOutcome.response 200 (Except.error "bad json")) =
      { status := some "error", detail := some "bad json" } :=
  ⟨(C4_healthcheck_never_raises _).2.1 "conn refused" rfl,
   (C4_healthcheck_never_raises _).2.2.1 503 _ rfl (by norm_num),
   (C4_healthcheck_never_raises _).2.2.2 200 "bad json" rfl (by norm_num)⟩

/-- C7 counterexample: the claim says `_post_query` raises whenever the
status is not 2xx, but `raise_for_status` only fires for 4xx/5xx.  A 300
response with a decodable body (which `requests` does not auto-follow) is
returned as a normal value even though 300 is not a 2xx status. -/
theorem C7_claim_counterexample :
    (¬ (200 ≤ 300 ∧ 300 ≤ 299)) ∧
    (_post_query "q" 5 [] (PostOutcome.response 300 (Except.ok okBody300))).2 =
      Except.ok okBody300 :=
  ⟨by decide, rfl⟩

/-- C7 amended: `_post_query` propagates every transport exception, raises
exactly when `raise_for_status` does — i.e. for every 4xx/5xx status — and
propagates body-decode failures when no HTTP error fired; none of these is
swallowed into a normal return. -/
theorem C7_amended_error_propagation (q : String) (k : Int) (hist : List Message) :
    (∀ msg, (_post_query q k hist (PostOutcome.exn msg)).2 = Except.error msg) ∧
    (∀ status body e, raiseForStatus status = some e →
      (_post_query q k hist (PostOutcome.response status body)).2 = Except.error e) ∧
    (∀ status, 400 ≤ status → status < 600 → (raiseForStatus status).isSome = true) ∧
    (∀ status msg, raiseForStatus status = none →
      (_post_query q k hist (PostOutcome.response status (Except.error msg))).2 =
        Except.error msg) := by
  refine ⟨fun msg => rfl, ?_, ?_, ?_⟩
  · intro status body e he
    simp [_post_query, he]
  · intro status h4 h6
    unfold raiseForStatus
    by_cases h5 : status < 500
    · rw [if_pos ⟨h4, h5⟩]; rfl
    · rw [if_neg (fun hc => h5 hc.2), if_pos ⟨Nat.le_of_not_lt h5, h6⟩]; rfl
  · intro status msg hn
    simp [_post_query, hn]

/-- Witness for the amended C7: a timeout, an HTTP 503, an HTTP 404, and a
body-decode failure on a 204 response. -/
theorem C7_witness :
    (_post_query "q" 5 [] (PostOutcome.exn "timed out")).2 = Except.error "timed out" ∧
    (_post_query "q" 5 [] (PostOutcome.response 503 (Except.ok okBody300))).2 =
      Except.error (toString 503 ++ " Server Error") ∧
    (raiseForStatus 404).isSome = true ∧
    (_post_query "q" 5 [] (PostOutcome.response 204 (Except.error "bad json"))).2 =
      Except.error "bad json" :=
  ⟨(C7_amended_error_propagation "q" 5 []).1 "timed out",
   (C7_amended_error_propagation "q" 5 []).2.1 503 (Except.ok okBody300) _ rfl,
   (C7_amended_error_propagation "q" 5 []).2.2.1 404 (by norm_num) (by norm_num),
   (C7_amended_error_propagation "q" 5 []).2.2.2 204 "bad json" rfl⟩

/-- C3: whenever the backend call raises (network failure, timeout, HTTP
error), `_send_and_render` keeps the user message as the only addition to
the history — it grows by exactly 1, no assistant message — and renders an
inline `Request failed:` error whose text contains the exception message. -/
theorem C3_failure_keeps_history (q : String) (k : Int) (msgs : List Message)
    (p : Option String) (net : PostOutcome) (clicked : Option Nat) (e : String)
    (herr : (_post_query q k (msgs ++ [{ role := "user", content := q }]) net).2 =
      Except.error e) :
    (_send_and_render q k msgs p net clicked).messages =
      msgs ++ [{ role := "user", content := q }] ∧
    (_send_and_render q k msgs p net clicked).messages.length = msgs.length + 1 ∧
    (∃ t, RenderItem.errorBox t ∈ (_send_and_render q k msgs p net clicked).rendered ∧
      ∃ front, t = front ++ e) := by
  have hmsg : (_send_and_render q k msgs p net clicked).messages =
      msgs ++ [{ role := "user", content := q }] := by
    unfold _send_and_render
    dsimp only
    rw [herr]
  refine ⟨hmsg, by rw [hmsg]; simp, ⟨"Request failed: " ++ e, ?_, "Request failed: ", rfl⟩⟩
  unfold _send_and_render
  dsimp only
  rw [herr]
  simp

/-- Witness for C3: a read timeout on a first exchange. -/
theorem C3_witness :
    ((_post_query "hi" 5 [{ role := "user", content := "hi" }]
        (PostOutcome.exn "Read timed out")).2 = Except.error "Read timed out") ∧
    (_send_and_render "hi" 5 [] none (PostOutcome.exn "Read timed out") none).messages =
      [{ role := "user", content := "hi" }] ∧
    (_send_and_render "hi" 5 [] none (PostOutcome.exn "Read timed out") none).messages.length
      = 0 + 1 ∧
    (∃ t, RenderItem.errorBox t ∈
        (_send_and_render "hi" 5 [] none (PostOutcome.exn "Read timed out") none).rendered ∧
      ∃ front, t = front ++ "Read timed out") := by
  have h := C3_failure_keeps_history "hi" 5 [] none (PostOutcome.exn "Read timed out")
    none "Read timed out" rfl
  exact ⟨rfl, h.1, h.2.1, h.2.2⟩

/-- C6: on a successful response whose `answer` is absent or empty, the
rendered answer text is the fallback `No answer returned.` and the
assistant message appended to the history carries that same fallback. -/
theorem C6_missing_answer_fallback (q : String) (k : Int) (msgs : List Message)
    (p : Option String) (net : PostOutcome) (clicked : Option Nat) (resp : QueryResponse)
    (hok : (_post_query q k (msgs ++ [{ role := "user", content := q }]) net).2 =
      Except.ok resp)
    (hans : resp.answer = none ∨ resp.answer = some "") :
    RenderItem.markdown "No answer returned." ∈
      (_send_and_render q k msgs p net clicked).rendered ∧
    (_send_and_render q k msgs p net clicked).messages =
      msgs ++ [{ role := "user", content := q },
               { role := "assistant", content := "No answer returned." }] := by
  have hextract : extractAnswer resp = "No answer returned." := by
    rcases hans with h | h <;> simp [extractAnswer, pyOrStr, h]
  constructor
  · unfold _send_and_render
    dsimp only
    rw [hok]
    simp [hextract]
  · unfold _send_and_render
    dsimp only
    rw [hok]
    simp [hextract]

/-- Witness for C6: a 200 response whose body has no `answer` key. -/
theorem C6_witness :
    ((_post_query "hi" 5 [{ role := "user", content := "hi" }]
        (PostOutcome.response 200 (Except.ok respNoAnswer))).2 = Except.ok respNoAnswer) ∧
    RenderItem.markdown "No answer returned." ∈
      (_send_and_render "hi" 5 [] none
        (PostOutcome.response 200 (Except.ok respNoAnswer)) none).rendered ∧
    (_send_and_render "hi" 5 [] none
        (PostOutcome.response 200 (Except.ok respNoAnswer)) none).messages =
      [{ role := "user", content := "hi" },
       { role := "assistant", content := "No answer returned." }] := by
  have h := C6_missing_answer_fallback "hi" 5 [] none
    (PostOutcome.response 200 (Except.ok respNoAnswer)) none respNoAnswer rfl (Or.inl rfl)
  exact ⟨rfl, h.1, h.2⟩

/-- Clicking the button of follow-up `i` sets `pending_input` to exactly
that follow-up's text, and renders the same caption and buttons as an
unclicked pass. -/
theorem render_followups_click (fs : List String) (i : Nat) (fu : String)
    (p : Option String) (hfu : fs.get? i = some fu) :
    (_render_followups fs (some i) p).1 = some fu ∧
    (_render_followups fs (some i) p).2 = (_render_followups fs none p).2 := by
  have hne : fs.isEmpty = false := by
    cases fs with
    | nil => simp at hfu
    | cons a t => rfl
  have hfu2 : fs[i]? = some fu := by
    rw [← List.get?_eq_getElem?]; exact hfu
  unfold _render_followups
  simp [hne, hfu2]

/-- C5 counterexample: the claim says no message is appended to the history
until the user confirms submission; but right after a follow-up click left
its text in `pending_input`, the next run — with NO chat submission at all
— auto-submits that text: the query is sent and both a user and an
assistant message are appended. -/
theorem C5_claim_counterexample :
    followupPassInputs.chatInput = none ∧
    (scriptPass followupPendingState followupPassInputs).sent =
      some { query := "How much does X cost?", top_k := 5,
             history := some [{ role := "user", content := "How much does X cost?" }] } ∧
    (scriptPass followupPendingState followupPassInputs).state.messages =
      some [{ role := "user", content := "How much does X cost?" },
            { role := "assistant", content := "X costs $5." }] :=
  ⟨rfl, rfl, rfl⟩

/-- C5 amended: selecting a follow-up button sets `pending_input` to that
follow-up's exact text and changes nothing else on that pass (history and
rendered output are those of an unclicked pass); however, on the next run
the pending text is consumed and, when no typed chat input is present, it
is automatically submitted as the user input without further
confirmation. -/
theorem C5_followup_amended (q : String) (k : Int) (msgs : List Message)
    (p : Option String) (net : PostOutcome) (i : Nat) (fu : String) (resp : QueryResponse)
    (hok : (_post_query q k (msgs ++ [{ role := "user", content := q }]) net).2 =
      Except.ok resp)
    (hfu : (resp.follow_ups.getD []).get? i = some fu) :
    ((_send_and_render q k msgs p net (some i)).pending = some fu) ∧
    ((_send_and_render q k msgs p net (some i)).messages =
      (_send_and_render q k msgs p net none).messages) ∧
    ((_send_and_render q k msgs p net (some i)).rendered =
      (_send_and_render q k msgs p net none).rendered) ∧
    (∀ st0 inp, st0.pending_input = some fu → fu ≠ "" → inp.chatInput = none →
      ∃ pay, (scriptPass st0 inp).sent = some pay ∧ pay.query = fu) := by
  refine ⟨?_, ?_, ?_, ?_⟩
  · unfold _send_and_render
    dsimp only
    rw [hok]
    dsimp only
    exact (render_followups_click _ i fu p hfu).1
  · unfold _send_and_render
    dsimp only
    rw [hok]
  · unfold _send_and_render
    dsimp only
    rw [hok]
    dsimp only
    rw [(render_followups_click _ i fu p hfu).2]
  · intro st0 inp hpend hfune hchat
    have hr : (resolveInput st0.pending_input inp.chatInput).2 = fu := by
      rw [hpend, hchat]
      unfold resolveInput
      dsimp only
      rw [if_pos ⟨hfune, rfl⟩]
      rfl
    exact ⟨_, scriptPass_run st0 inp fu hfune hr, rfl⟩

/-- Witness for the amended C5: clicking the second of two follow-ups, and
the auto-submission of its text on the following run. -/
theorem C5_witness :
    ((_send_and_render "q" 5 [] none netFollowups (some 1)).pending = some "How fast?") ∧
    ((_send_and_render "q" 5 [] none netFollowups (some 1)).messages =
      (_send_and_render "q" 5 [] none netFollowups none).messages) ∧
    (∃ pay, (scriptPass autoSubmitState autoSubmitInputs).sent = some pay ∧
      pay.query = "How fast?") := by
  have h := C5_followup_amended "q" 5 [] none netFollowups 1 "How fast?"
    respWithFollowups rfl rfl
  exact ⟨h.1, h.2.1, h.2.2.2 autoSubmitState autoSubmitInputs rfl (by decide) rfl⟩

/-- C8: every payload a run sends carries a `top_k` inside [1, 20],
whatever the prior session state held, because the sidebar writes the
slider's value back to session state before any dispatch; and on a fresh
session with an untouched slider, `top_k` is 5. -/
theorem C8_topk_in_range (st0 : AppState) (inp : ScriptInputs) :
    (∀ pay, (scriptPass st0 inp).sent = some pay →
      1 ≤ pay.top_k ∧ pay.top_k ≤ 20) ∧
    (st0.top_k = none → inp.sliderSel = none →
      (scriptPass st0 inp).state.top_k = some 5) := by
  constructor
  · intro pay hp
    rcases scriptPass_sent_cases st0 inp with h | ⟨u, hu, h⟩
    · rw [h] at hp; cases hp
    · rw [h] at hp
      injection hp with hpay
      rw [← hpay]
      exact slider_range 1 20 _ (by norm_num)
  · intro h1 h2
    unfold scriptPass
    dsimp only
    rw [h1, h2]
    split <;> (dsimp only; decide)

/-- Witness for C8: a session whose `top_k` key was manipulated to 50 still
sends 20 (the slider clamps it), and a fresh session ends with `top_k` 5. -/
theorem C8_witness :
    ((scriptPass manipulatedState typedInputs).sent =
      some { query := "hi", top_k := 20,
             history := some [{ role := "user", content := "hi" }] }) ∧
    (1 ≤ (20 : Int) ∧ (20 : Int) ≤ 20) ∧
    (scriptPass freshState idleInputs).state.top_k = some 5 := by
  refine ⟨rfl, ?_, (C8_topk_in_range freshState idleInputs).2 rfl rfl⟩
  exact (C8_topk_in_range manipulatedState typedInputs).1
    { query := "hi", top_k := 20,
      history := some [{ role := "user", content := "hi" }] } rfl

/-- C9: when both a pending follow-up and freshly typed chat input are
present on one run, the typed input is submitted and the pending text is
popped and silently discarded — the whole run is identical to one where no
pending text existed at all. -/
theorem C9_typed_input_wins (st0 : AppState) (inp : ScriptInputs) (p c : String)
    (hp : st0.pending_input = some p) (hc : inp.chatInput = some c) (hcne : c ≠ "") :
    scriptPass st0 inp = scriptPass { st0 with pending_input := none } inp ∧
    ∃ pay, (scriptPass st0 inp).sent = some pay ∧ pay.query = c := by
  have hr1 : resolveInput st0.pending_input inp.chatInput = (none, c) := by
    rw [hp, hc]
    unfold resolveInput
    dsimp only
    rw [if_neg (fun hand => hcne hand.2)]
    rfl
  have hr2 : resolveInput (none : Option String) inp.chatInput = (none, c) := by
    rw [hc]
    unfold resolveInput
    dsimp only
    rw [if_neg (fun hand => hand.1 rfl)]
    rfl
  constructor
  · unfold scriptPass
    dsimp only
    rw [hr1, hr2]
  · exact ⟨_, scriptPass_run st0 inp c hcne (by rw [hr1]), rfl⟩

/-- Witness for C9: pending "pending question" and typed "hi" resolve to
sending "hi", with the run indistinguishable from one with no pending. -/
theorem C9_witness :
    scriptPass pendingAndTypedState typedInputs =
      scriptPass { pendingAndTypedState with pending_input := none } typedInputs ∧
    ∃ pay, (scriptPass pendingAndTypedState typedInputs).sent = some pay ∧
      pay.query = "hi" :=
  C9_typed_input_wins pendingAndTypedState typedInputs "pending question" "hi"
    rfl rfl (by decide)

/-- C10: a run preserves history well-formedness — every message has role
`user` or `assistant` and non-empty content: user messages are appended
only behind the non-empty-input guard, and assistant content is the
extracted answer, which the fallback keeps non-empty. -/
theorem C10_history_wellformed (st0 : AppState) (inp : ScriptInputs)
    (h0 : ∀ m ∈ st0.messages.getD [], wfMessage m) :
    ∀ m ∈ (scriptPass st0 inp).state.messages.getD [], wfMessage m := by
  intro m
  unfold scriptPass
  dsimp only
  split
  · intro hm
    exact h0 m hm
  · next hcond =>
    intro hm
    rcases send_and_render_messages
        ((resolveInput st0.pending_input inp.chatInput).2)
        (slider 1 20 (inp.sliderSel.getD (st0.top_k.getD 5)))
        (st0.messages.getD [])
        ((resolveInput st0.pending_input inp.chatInput).1)
        inp.queryNet inp.clicked with hsh | ⟨resp, hsh⟩
    · rw [hsh] at hm
      rcases List.mem_append.mp hm with hmem | hmem
      · exact h0 m hmem
      · rw [List.mem_singleton.mp hmem]
        exact ⟨Or.inl rfl, hcond⟩
    · rw [hsh] at hm
      rcases List.mem_append.mp hm with hmem | hmem
      · exact h0 m hmem
      · rcases List.mem_cons.mp hmem with heq | hmem2
        · rw [heq]
          exact ⟨Or.inl rfl, hcond⟩
        · rw [List.mem_singleton.mp hmem2]
          exact ⟨Or.inr rfl, extractAnswer_ne_empty resp⟩

/-- Witness for C10: the assistant message stored by a concrete successful
exchange is well-formed. -/
theorem C10_witness : wfMessage { role := "assistant", content := "X costs $5." } :=
  C10_history_wellformed wfStartState wfInputs (by decide) _ (by decide)
